import Mathlib

/-!
Shallow embedding of the bardobackend event-ticketing service.

Times are modelled as integer millisecond timestamps, JS numbers as `Int`,
statuses and messages as the literal strings from the source.  Each route
handler or model hook is translated into a pure function that takes the
relevant documents (the result of the database lookups) and the current
time explicitly.
-/

namespace Bardo

/-- One pre-sale stage record (`preSaleStageSchema` in the staged Event model). -/
structure PreSaleStage where
  name : String
  price : Int
  ticketLimit : Int
  ticketsSold : Int
  endDate : Int
  isActive : Bool
deriving DecidableEq, Repr

/-- Free-ticket configuration (`freeTicketsConfigSchema` in the staged Event model). -/
structure FreeTicketsConfig where
  enabled : Bool
  quantity : Int
  ticketsClaimed : Int
deriving DecidableEq, Repr

/-- The staged Event document (the model with `preSaleStages` and the
`freeTickets` object). -/
structure Event where
  title : String
  date : Int
  location : String
  image : String
  basePrice : Int
  preSaleStages : List PreSaleStage
  freeTickets : FreeTicketsConfig
  status : String
deriving DecidableEq, Repr

/-- `totalTicketsAvailable` virtual: sum of `ticketLimit - ticketsSold` over
the active stages. -/
def Event.totalTicketsAvailable (e : Event) : Int :=
  e.preSaleStages.foldl
    (fun total stage =>
      if stage.isActive then total + (stage.ticketLimit - stage.ticketsSold) else total) 0

/-- The staged Event model's `pre('save')` middleware: past active events are
marked completed, active events with no remaining stage tickets are marked
sold-out (computed before the stage deactivation below, as in the source),
and stages whose `endDate` has passed are deactivated. -/
def preSaveEvent (now : Int) (e : Event) : Event :=
  let e1 := if e.date < now && e.status == "active" then { e with status := "completed" } else e
  let e2 := if e1.status == "active" && e1.totalTicketsAvailable == 0
            then { e1 with status := "sold-out" } else e1
  { e2 with preSaleStages :=
      e2.preSaleStages.map (fun s => if s.endDate < now then { s with isActive := false } else s) }

/-- One ticket-holder entry of a reservation request. -/
structure TicketHolder where
  nombre : String
  apellido : String
  telefono : String
  email : String
deriving DecidableEq, Repr

/-- JS whitespace characters relevant to the `\s` class of the e-mail regex. -/
def isJsSpace (c : Char) : Bool :=
  c == ' ' || c == '\t' || c == '\n' || c == '\r' || c == '\x0b' || c == '\x0c'

/-- `String.toUpperCase`: JS uppercases character-wise (kernel-computable
variant of the library `toUpper`). -/
def toUpperStr (s : String) : String := String.mk (s.data.map Char.toUpper)

/-- `String.prototype.trim()`: strip leading and trailing whitespace. -/
def trimStr (s : String) : String :=
  String.mk (((s.data.dropWhile isJsSpace).reverse.dropWhile isJsSpace).reverse)

/-- `String.prototype.startsWith`. -/
def startsWithStr (s pre : String) : Bool := s.data.take pre.data.length == pre.data

/-- `String.prototype.substring(n)` / dropping a prefix of `n` characters. -/
def dropStr (s : String) (n : Nat) : String := String.mk (s.data.drop n)

/-- Split on a non-empty separator, leftmost-first; the first argument of the
loop is fuel (the text length plus one suffices). -/
def splitOnAux (sep : List Char) : Nat → List Char → List Char → List (List Char)
  | 0, rest, acc => [acc.reverse ++ rest]
  | _ + 1, [], acc => [acc.reverse]
  | fuel + 1, c :: cs, acc =>
    if (c :: cs).take sep.length = sep then
      acc.reverse :: splitOnAux sep fuel ((c :: cs).drop sep.length) []
    else splitOnAux sep fuel cs (c :: acc)

/-- `String.prototype.split(sep)` for a non-empty literal separator. -/
def splitOnStr (s sep : String) : List String :=
  if sep.data = [] then [s]
  else (splitOnAux sep.data (s.data.length + 1) s.data []).map String.mk

/-- `Array.prototype.join(sep)`. -/
def intercalateStr (sep : String) : List String → String
  | [] => ""
  | [x] => x
  | x :: xs => x ++ sep ++ intercalateStr sep xs

/-- The route's e-mail test `/^[^\s@]+@[^\s@]+\.[^\s@]+$/`: no whitespace,
exactly one `@` with a non-empty local part, and a domain that splits at some
dot into two non-empty halves. -/
def validEmail (s : String) : Bool :=
  (s.data.all (fun c => !isJsSpace c)) &&
  (match splitOnStr s "@" with
   | [localPart, domain] =>
     localPart ≠ "" &&
     (match splitOnStr domain "." with
      | headPart :: rest => headPart ≠ "" && rest ≠ [] && intercalateStr "." rest ≠ ""
      | [] => false)
   | _ => false)

/-- An HTTP response: a status code and the (primary) JSON message. -/
structure HttpResponse where
  status : Nat
  message : String
deriving DecidableEq, Repr

/-- A Reservation document. -/
structure Reservation where
  eventId : String
  eventTitle : String
  tickets : List TicketHolder
  totalTickets : Nat
  reservationCode : Option String
  status : String
  preSaleStageIndex : Option Int
  isFreeTicket : Bool
  orderId : Option String
  paymentStatus : String
  paymentStatusDetail : Option String
  paymentMethod : String
  paymentId : Option String
  totalAmount : Int
  isPaid : Bool
  paidAt : Option Int
deriving DecidableEq, Repr

/-- Digits used by JS `Number.prototype.toString(36)`. -/
def base36Digits : List Char :=
  "0123456789abcdefghijklmnopqrstuvwxyz".toList

/-- Division loop for base-36 rendering; the first argument is fuel
(`n + 1` suffices since the value shrinks every step). -/
def natToBase36Aux : Nat → Nat → List Char → List Char
  | 0, _, acc => acc
  | fuel + 1, n, acc =>
    if n < 36 then base36Digits.getD n '0' :: acc
    else natToBase36Aux fuel (n / 36) (base36Digits.getD (n % 36) '0' :: acc)

/-- Base-36 rendering of a natural number, as JS `n.toString(36)` produces. -/
def natToBase36 (n : Nat) : String :=
  String.mk (natToBase36Aux (n + 1) n [])

/-- Reservation code generation from the `pre('save')` hook:
`` `BARDO${timestamp}${random}`.toUpperCase() `` with the timestamp written in
base 36. -/
def genReservationCode (nowMs : Nat) (rand : String) : String :=
  toUpperStr ("BARDO" ++ natToBase36 nowMs ++ rand)

/-- The Reservation model's `pre('save')` middleware.  `prev` is the stored
document before this save (`none` for a new document); mongoose marks
`paymentStatus` modified when the assigned value differs from the stored one.
`rand` is the random suffix drawn for code generation. -/
def saveReservation (prev : Option Reservation) (r : Reservation) (nowMs : Nat) (rand : String) :
    Reservation :=
  let r1 := if r.reservationCode = none
            then { r with reservationCode := some (genReservationCode nowMs rand) } else r
  let modifiedPS : Bool :=
    match prev with
    | none => true
    | some p => p.paymentStatus ≠ r1.paymentStatus
  if modifiedPS && r1.paymentStatus == "approved" && r1.paidAt == none
  then { r1 with paidAt := some (Int.ofNat nowMs), isPaid := true }
  else r1

/-- The request body of `POST /api/reservations`. -/
structure ResvRequest where
  eventIdStr : String
  eventTitle : String
  tickets : List TicketHolder
  isPaid : Bool
  paymentMethod : Option String
  totalAmount : Int
  orderId : Option String
  preSaleStageIndex : Option Int
  isFreeTicket : Bool
deriving DecidableEq, Repr

/-- Outcome of `POST /api/reservations`: the HTTP response, the persisted
state of the event (when it was found), and the reservation store after the
request. -/
structure PostResvOutcome where
  resp : HttpResponse
  event : Option Event
  store : List Reservation
deriving DecidableEq, Repr

/-- First invalid ticket message of the per-ticket validation loop, if any. -/
def ticketValidationError (tickets : List TicketHolder) : Option String :=
  let rec go (i : Nat) : List TicketHolder → Option String
    | [] => none
    | t :: rest =>
      if t.nombre = "" || t.apellido = "" then
        some ("El ticket " ++ toString (i + 1) ++ " debe tener nombre y apellido")
      else if t.email ≠ "" && !validEmail t.email then
        some ("El email del ticket " ++ toString (i + 1) ++ " no es válido")
      else go (i + 1) rest
  go 0 tickets

/-- The reservation document built at the end of the handler (before save). -/
def buildReservation (req : ResvRequest) : Reservation :=
  { eventId := req.eventIdStr
    eventTitle := req.eventTitle
    tickets := req.tickets
    totalTickets := req.tickets.length
    reservationCode := none
    status := "confirmed"
    preSaleStageIndex := if req.isFreeTicket then none else req.preSaleStageIndex
    isFreeTicket := req.isFreeTicket
    orderId := req.orderId
    paymentStatus := "pending"
    paymentStatusDetail := none
    paymentMethod :=
      match req.paymentMethod with
      | some m => if m ≠ "" then m else (if req.isFreeTicket then "free" else "mercadopago")
      | none => if req.isFreeTicket then "free" else "mercadopago"
    paymentId := none
    totalAmount := req.totalAmount
    isPaid := req.isPaid
    paidAt := none }

/-- Saving a new reservation against the store: the unique index on
`reservationCode` raises the duplicate-key error (code 11000) when the code
is already present; otherwise the document is appended. -/
def insertReservation (store : List Reservation) (r : Reservation) :
    Except Unit (List Reservation × Reservation) :=
  if store.any (fun s => s.reservationCode == r.reservationCode)
  then Except.error ()
  else Except.ok (store ++ [r], r)

/-- The availability check and counter update of the `POST /api/reservations`
handler, per reservation type: free-ticket branch, pre-sale branch and the
default base-price branch (which touches no counter).  A successful
allocation runs `event.save()` (hence the pre-save middleware). -/
def allocateTickets (req : ResvRequest) (ev : Event) (now : Nat) : Except HttpResponse Event :=
  if req.isFreeTicket then
    if !ev.freeTickets.enabled then
      Except.error ⟨400, "Este evento no tiene entradas gratis disponibles"⟩
    else if ev.freeTickets.quantity > 0 &&
        ev.freeTickets.ticketsClaimed + (req.tickets.length : Int) >
          ev.freeTickets.quantity then
      Except.error ⟨400, "No hay suficientes entradas gratis disponibles"⟩
    else
      Except.ok (preSaveEvent (Int.ofNat now)
        { ev with freeTickets :=
            { ev.freeTickets with ticketsClaimed :=
                ev.freeTickets.ticketsClaimed + (req.tickets.length : Int) } })
  else
    match req.preSaleStageIndex with
    | none => Except.ok ev
    | some idx =>
      if idx ≥ (ev.preSaleStages.length : Int) then
        Except.error ⟨400, "Etapa de preventa no válida"⟩
      else if idx < 0 then
        -- `event.preSaleStages[idx]` is undefined; `stage.isActive` throws
        Except.error ⟨500,
          "Cannot read properties of undefined (reading 'isActive')"⟩
      else
        match ev.preSaleStages.get? idx.toNat with
        | none => Except.error ⟨500,
            "Cannot read properties of undefined (reading 'isActive')"⟩
        | some stage =>
          if !stage.isActive then
            Except.error ⟨400, "Esta etapa de preventa no está activa"⟩
          else if stage.endDate < Int.ofNat now then
            Except.error ⟨400, "Esta etapa de preventa ha expirado"⟩
          else if stage.ticketsSold + (req.tickets.length : Int) >
              stage.ticketLimit then
            Except.error ⟨400,
              "No hay suficientes entradas disponibles en esta etapa"⟩
          else
            let stage2 :=
              { stage with ticketsSold :=
                  stage.ticketsSold + (req.tickets.length : Int) }
            Except.ok (preSaveEvent (Int.ofNat now)
              { ev with preSaleStages := ev.preSaleStages.set idx.toNat stage2 })

/-- The `POST /api/reservations` handler.  `event` is the result of
`Event.findById`, `now` the current time in ms, and `rand` the random suffix
the pre-save hook draws for code generation. -/
def postReservation (req : ResvRequest) (event : Option Event) (store : List Reservation)
    (now : Nat) (rand : String) : PostResvOutcome :=
  if req.eventIdStr = "" || req.eventTitle = "" then
    { resp := ⟨400, "Faltan campos requeridos: eventId, eventTitle, tickets"⟩,
      event := event, store := store }
  else
    match event with
    | none => { resp := ⟨404, "Evento no encontrado"⟩, event := none, store := store }
    | some ev =>
      if req.tickets.length = 0 || req.tickets.length > 4 then
        { resp := ⟨400, "Debe reservar entre 1 y 4 entradas"⟩, event := some ev, store := store }
      else
        match ticketValidationError req.tickets with
        | some msg => { resp := ⟨400, msg⟩, event := some ev, store := store }
        | none =>
          match allocateTickets req ev now with
          | Except.error resp => { resp := resp, event := some ev, store := store }
          | Except.ok ev2 =>
            let newResv := saveReservation none (buildReservation req) now rand
            match insertReservation store newResv with
            | Except.error _ =>
              { resp := ⟨500, "Error al generar código de reserva único. Intente nuevamente."⟩,
                event := some ev2, store := store }
            | Except.ok (store2, _) =>
              { resp := ⟨201, "Reserva creada exitosamente"⟩,
                event := some ev2, store := store2 }

/-! ## MercadoPago webhook reconciliation (src/routes/mercadopago.js) -/

/-- Phone sub-object of a payment payer. -/
structure PayerPhone where
  area_code : String
  number : String
deriving DecidableEq, Repr

/-- Payer information attached to a gateway payment.  Absent string fields are
the empty string (falsy in JS). -/
structure PaymentPayer where
  first_name : String
  last_name : String
  email : String
  phone : Option PayerPhone
deriving DecidableEq, Repr

/-- The checkout metadata echoed back inside a payment.  `ticketsField` is
`metadata.tickets` (`0` standing for an absent/zero value, which the code
replaces by 1 via `metadata.tickets || 1`). -/
structure PaymentMetadata where
  event_id : String
  event_title : String
  ticketsField : Nat
  pre_sale_stage : Option Int
  customer_email : String
  customer_name : String
deriving DecidableEq, Repr

/-- A payment object fetched from the gateway. -/
structure Payment where
  id : String
  status : String
  status_detail : String
  external_reference : String
  transaction_amount : Int
  metadata : PaymentMetadata
  payer : Option PaymentPayer
deriving DecidableEq, Repr

/-- Contact info derived by `getUserInfoFromMetadata`. -/
structure UserInfo where
  nombre : String
  apellido : String
  email : String
  telefono : String
deriving DecidableEq, Repr

/-- `getUserInfoFromMetadata(metadata, paymentPayer)`. -/
def getUserInfoFromMetadata (md : PaymentMetadata) (payer : Option PaymentPayer) : UserInfo :=
  let u0 : UserInfo := ⟨"Cliente", "BARDO", "", ""⟩
  let u1 := if md.customer_email ≠ "" then { u0 with email := md.customer_email } else u0
  let u2 :=
    if md.customer_name ≠ "" then
      let names := splitOnStr md.customer_name " "
      let first := names.headD ""
      let rest := intercalateStr " " names.tail
      { u1 with nombre := if first ≠ "" then first else "Cliente",
                apellido := if rest ≠ "" then rest else "BARDO" }
    else u1
  match payer with
  | none => u2
  | some p =>
    let u3 := if p.first_name ≠ "" then { u2 with nombre := p.first_name } else u2
    let u4 := if p.last_name ≠ "" then { u3 with apellido := p.last_name } else u3
    let u5 := if p.email ≠ "" then { u4 with email := p.email } else u4
    match p.phone with
    | some ph => { u5 with telefono := ph.area_code ++ ph.number }
    | none => u5

/-- `createTicketsWithUserInfo(ticketsCount, userInfo, metadata)` (only the
fields of the ticket schema are persisted). -/
def createTicketsWithUserInfo (ticketsCount : Nat) (u : UserInfo) : List TicketHolder :=
  (List.range ticketsCount).map (fun i =>
    { nombre := if u.nombre ≠ "" then u.nombre else "Invitado" ++ toString (i + 1)
      apellido := if u.apellido ≠ "" then u.apellido else "BARDO"
      email := u.email
      telefono := u.telefono })

/-- The persisted stores the webhook operates on. -/
structure SysState where
  reservations : List Reservation
  events : List (String × Event)
deriving DecidableEq, Repr

/-- `Reservation.findOne({ orderId })`. -/
def findByOrderId (orderId : String) (store : List Reservation) : Option Reservation :=
  store.find? (fun r => r.orderId == some orderId)

/-- Replace the first element satisfying `p` by `f` of it. -/
def updateFirst (p : α → Bool) (f : α → α) : List α → List α
  | [] => []
  | x :: xs => if p x then f x :: xs else x :: updateFirst p f xs

/-- `metadata.tickets || 1`. -/
def PaymentMetadata.ticketsCount (md : PaymentMetadata) : Nat :=
  if md.ticketsField ≠ 0 then md.ticketsField else 1

/-- `updateEventAfterPayment(metadata, ticketsCount)`: when the metadata
carries a stage index and that index denotes an existing stage, the stage's
`ticketsSold` is incremented by the ticket count with no limit check and the
event is saved (running its pre-save middleware). -/
def updateEventAfterPayment (md : PaymentMetadata) (ticketsCount : Nat) (now : Int)
    (events : List (String × Event)) : List (String × Event) :=
  match events.find? (fun kv => kv.fst == md.event_id) with
  | none => events
  | some (eid, ev) =>
    match md.pre_sale_stage with
    | none => events
    | some idx =>
      if idx < 0 then events
      else
        match ev.preSaleStages.get? idx.toNat with
        | none => events
        | some stage =>
          let stage2 := { stage with ticketsSold := stage.ticketsSold + (ticketsCount : Int) }
          let ev2 := preSaveEvent now
            { ev with preSaleStages := ev.preSaleStages.set idx.toNat stage2 }
          updateFirst (fun kv => kv.fst == eid) (fun _ => (eid, ev2)) events

/-- The fresh reservation document `processApprovedPayment` builds when no
reservation carries the payment's order id (before the save hook runs).
Note `metadata.pre_sale_stage ? parseInt(...) : undefined` drops stage 0. -/
def newApprovedReservation (p : Payment) : Reservation :=
  let md := p.metadata
  let userInfo := getUserInfoFromMetadata md p.payer
  { eventId := md.event_id
    eventTitle := if md.event_title ≠ "" then md.event_title else "Evento"
    tickets := createTicketsWithUserInfo md.ticketsCount userInfo
    totalTickets := md.ticketsCount
    reservationCode := none
    status := "confirmed"
    preSaleStageIndex :=
      match md.pre_sale_stage with
      | some i => if i ≠ 0 then some i else none
      | none => none
    isFreeTicket := false
    orderId := some p.external_reference
    paymentStatus := "approved"
    paymentStatusDetail := none
    paymentMethod := "mercadopago"
    paymentId := some p.id
    totalAmount := p.transaction_amount
    isPaid := true
    paidAt := none }

/-- The in-place update the approved branch applies to an existing
reservation: status approved, gateway payment id, paid flag, amount, a fresh
`paidAt` stamp, and the contact backfill when the stored tickets have no
e-mail and the payment carries one. -/
def applyApprovedUpdate (p : Payment) (r : Reservation) (now : Nat) : Reservation :=
  let userInfo := getUserInfoFromMetadata p.metadata p.payer
  let r1 := { r with paymentStatus := "approved"
                     paymentId := some p.id
                     isPaid := true
                     totalAmount := p.transaction_amount
                     paidAt := some (Int.ofNat now) }
  let firstEmailEmpty :=
    match r1.tickets.head? with
    | none => true
    | some t => t.email = ""
  if firstEmailEmpty && userInfo.email ≠ "" then
    { r1 with tickets := r1.tickets.map (fun t =>
        { t with email := if userInfo.email ≠ "" then userInfo.email else t.email
                 nombre := if userInfo.nombre ≠ "" then userInfo.nombre else t.nombre
                 apellido := if userInfo.apellido ≠ "" then userInfo.apellido else t.apellido }) }
  else r1

/-- `processApprovedPayment(payment)`: find-or-create by order id, mark the
reservation approved/paid (stamping `paidAt` with the current time in the
existing-reservation branch), then update the event counters from the payment
metadata. -/
def processApprovedPayment (p : Payment) (st : SysState) (now : Nat) (rand : String) :
    SysState :=
  let md := p.metadata
  let orderId := p.external_reference
  let reservations2 :=
    match findByOrderId orderId st.reservations with
    | none =>
      st.reservations ++ [saveReservation none (newApprovedReservation p) now rand]
    | some r =>
      updateFirst (fun s => s.orderId == some orderId)
        (fun _ => saveReservation (some r) (applyApprovedUpdate p r now) now rand)
        st.reservations
  { reservations := reservations2
    events := updateEventAfterPayment md md.ticketsCount (Int.ofNat now) st.events }

/-- `processRejectedPayment(orderId, statusDetail)`: update the reservation if
it exists; a missing reservation is a silent no-op. -/
def processRejectedPayment (orderId statusDetail : String) (st : SysState) (now : Nat)
    (rand : String) : SysState :=
  match findByOrderId orderId st.reservations with
  | none => st
  | some r =>
    let r1 := { r with paymentStatus := "rejected"
                       paymentStatusDetail := some statusDetail
                       isPaid := false }
    let reservations2 := updateFirst (fun s => s.orderId == some orderId)
      (fun _ => saveReservation (some r) r1 now rand) st.reservations
    { st with reservations := reservations2 }

/-- `processCancelledPayment(orderId)`. -/
def processCancelledPayment (orderId : String) (st : SysState) (now : Nat) (rand : String) :
    SysState :=
  match findByOrderId orderId st.reservations with
  | none => st
  | some r =>
    let r1 := { r with paymentStatus := "cancelled", isPaid := false }
    let reservations2 := updateFirst (fun s => s.orderId == some orderId)
      (fun _ => saveReservation (some r) r1 now rand) st.reservations
    { st with reservations := reservations2 }

/-- `processPendingPayment(orderId, status)`. -/
def processPendingPayment (orderId status : String) (st : SysState) (now : Nat)
    (rand : String) : SysState :=
  match findByOrderId orderId st.reservations with
  | none => st
  | some r =>
    let r1 := { r with paymentStatus := status, isPaid := false }
    let reservations2 := updateFirst (fun s => s.orderId == some orderId)
      (fun _ => saveReservation (some r) r1 now rand) st.reservations
    { st with reservations := reservations2 }

/-- The `switch (status)` dispatch of the webhook route. -/
def webhookDispatch (p : Payment) (st : SysState) (now : Nat) (rand : String) : SysState :=
  if p.status = "approved" then
    processApprovedPayment p st now rand
  else if p.status = "rejected" then
    processRejectedPayment p.external_reference p.status_detail st now rand
  else if p.status = "cancelled" then
    processCancelledPayment p.external_reference st now rand
  else if p.status = "pending" || p.status = "in_process" then
    processPendingPayment p.external_reference p.status st now rand
  else
    st

/-- `POST /api/mercadopago/webhook`, with the gateway lookup and the
processing step abstracted: `fetch` is the result of
`paymentClient.get({ id })` and `dispatch` is the status-dispatch step, which
may throw.  The inner try/catch logs and swallows any error from either,
after which the route answers 200 'OK'; only a failure before dispatch (a
missing `data` object makes `data.id` throw) reaches the outer catch. -/
def webhookHandler (reqType : String) (dataId : Option String)
    (fetch : Except String Payment) (dispatch : Payment → SysState → Except String SysState)
    (st : SysState) : HttpResponse × SysState :=
  if reqType = "payment" then
    match dataId with
    | none => (⟨500, "Error processing webhook"⟩, st)
    | some _ =>
      match fetch with
      | Except.error _ => (⟨200, "OK"⟩, st)
      | Except.ok p =>
        match dispatch p st with
        | Except.error _ => (⟨200, "OK"⟩, st)
        | Except.ok st2 => (⟨200, "OK"⟩, st2)
  else
    (⟨200, "OK"⟩, st)

/-- The webhook route with the concrete dispatch of the source. -/
def webhookRoute (reqType : String) (dataId : Option String)
    (fetch : Except String Payment) (st : SysState) (now : Nat) (rand : String) :
    HttpResponse × SysState :=
  webhookHandler reqType dataId fetch
    (fun p s => Except.ok (webhookDispatch p s now rand)) st

/-! ## Status sweepers (`updateEventStatuses` in both Event model versions) -/

/-- Staged `updateEventStatuses`: past active events become completed
(`updateMany`, no middleware), then every event having an expired
still-active stage gets its expired stages deactivated and is saved (running
the pre-save middleware).  No free-ticket condition is examined. -/
def stagedUpdateEventStatuses (now : Int) (events : List Event) : List Event :=
  let evs1 := events.map (fun e =>
    if e.date < now && e.status == "active" then { e with status := "completed" } else e)
  evs1.map (fun e =>
    if e.preSaleStages.any (fun s => s.endDate < now && s.isActive) then
      preSaveEvent now
        { e with preSaleStages :=
            e.preSaleStages.map (fun s =>
              if s.endDate < now then { s with isActive := false } else s) }
    else e)

/-! ## Event routes (src/routes/events.js) -/

/-- A stage record as submitted to `POST /api/events` (absent numeric fields
are 0, absent strings are empty — both falsy in JS). -/
structure EventStageReq where
  name : String
  price : Int
  ticketLimit : Int
  endDate : Int
deriving DecidableEq, Repr

/-- The request body of `POST /api/events`. -/
structure CreateEventRequest where
  title : String
  dateReq : Option Int
  location : String
  dj : String
  info : String
  basePrice : Int
  image : String
  preSaleStagesReq : Option (List EventStageReq)
  freeTicketsReq : Option FreeTicketsConfig
deriving DecidableEq, Repr

/-- Characters admitted by the `[A-Za-z-+/]` class of the image regex. -/
def isMimeChar (c : Char) : Bool :=
  c.isAlpha || c == '-' || c == '+' || c == '/'

/-- The route's test `image.match(/^data:([A-Za-z-+/]+);base64,(.+)$/)`:
a `data:` prefix, a non-empty run of mime characters, the literal
`;base64,`, and a non-empty remainder (`.` does not cross line breaks). -/
def matchesDataBase64 (s : String) : Bool :=
  startsWithStr s "data:" &&
  (match splitOnStr (dropStr s 5) ";base64," with
   | mime :: rest =>
     mime ≠ "" && mime.data.all isMimeChar && rest ≠ [] &&
     (let payload := intercalateStr ";base64," rest
      payload ≠ "" && payload.data.all (fun c => c ≠ '\n' && c ≠ '\r'))
   | [] => false)

/-- First failing stage-validation message of the creation route's loop. -/
def stageReqValidationError (now : Int) (stages : List EventStageReq) : Option String :=
  let rec go (i : Nat) : List EventStageReq → Option String
    | [] => none
    | s :: rest =>
      if s.name = "" || s.price == 0 || s.ticketLimit == 0 || s.endDate == 0 then
        some ("Faltan campos en la etapa " ++ toString (i + 1) ++
          ": nombre, precio, límite de entradas o fecha de fin")
      else if s.price < 0 then
        some ("El precio de la etapa " ++ toString (i + 1) ++ " no puede ser negativo")
      else if s.ticketLimit < 1 then
        some ("El límite de entradas de la etapa " ++ toString (i + 1) ++ " debe ser al menos 1")
      else if s.endDate ≤ now then
        some ("La fecha de fin de la etapa " ++ toString (i + 1) ++ " debe ser futura")
      else go (i + 1) rest
  go 0 stages

/-- Mongoose document validation for the staged Event model (the validators
declared in the schemas). -/
def validEventDoc (now : Int) (e : Event) : Bool :=
  e.title ≠ "" && e.title.length ≥ 5 && e.title.length ≤ 100 &&
  e.date ≥ now &&
  e.location ≠ "" && e.location.length ≥ 5 && e.location.length ≤ 200 &&
  (startsWithStr e.image "data:image/" || startsWithStr e.image "http://" ||
    startsWithStr e.image "https://") &&
  e.basePrice ≥ 0 &&
  e.preSaleStages.all (fun s =>
    s.name ≠ "" && s.name.length ≤ 50 && s.price ≥ 0 && s.ticketLimit ≥ 1 &&
    s.ticketsSold ≥ 0 && s.endDate > now) &&
  e.freeTickets.quantity ≥ 0 && e.freeTickets.ticketsClaimed ≥ 0

/-- `POST /api/events`: validations of the route, construction of the
document, schema validation and the pre-save middleware.  A `400`/`500`
response means nothing was stored. -/
def createEvent (req : CreateEventRequest) (now : Int) : Except HttpResponse Event :=
  if req.title = "" || req.dateReq == none || req.location = "" || req.image = "" then
    Except.error ⟨400, "Faltan campos requeridos: título, fecha, ubicación o imagen"⟩
  else if !startsWithStr req.image "data:image/" then
    Except.error ⟨400, "Formato de imagen no válido. Use Base64."⟩
  else if !matchesDataBase64 req.image then
    Except.error ⟨400, "Formato Base64 incorrecto"⟩
  else
    match req.dateReq with
    | none => Except.error ⟨400, "Faltan campos requeridos: título, fecha, ubicación o imagen"⟩
    | some eventDate =>
      if eventDate < now then
        Except.error ⟨400, "La fecha del evento no puede ser en el pasado"⟩
      else if req.basePrice ≠ 0 && req.basePrice < 0 then
        Except.error ⟨400, "El precio base debe ser un valor positivo"⟩
      else
        match stageReqValidationError now (req.preSaleStagesReq.getD []) with
        | some msg => Except.error ⟨400, msg⟩
        | none =>
          let newEvent : Event :=
            { title := trimStr req.title
              date := eventDate
              location := trimStr req.location
              image := req.image
              basePrice := req.basePrice
              preSaleStages := (req.preSaleStagesReq.getD []).map (fun s =>
                { name := s.name, price := s.price, ticketLimit := s.ticketLimit,
                  ticketsSold := 0, endDate := s.endDate, isActive := true })
              freeTickets := req.freeTicketsReq.getD ⟨false, 0, 0⟩
              status := "active" }
          if !validEventDoc now newEvent then
            Except.error ⟨400, "Error de validación"⟩
          else
            Except.ok (preSaveEvent now newEvent)

/-- `Event.findById` over the event store, as used by `GET /api/events/:id`. -/
def findEventById (store : List (String × Event)) (id : String) : Option Event :=
  (store.find? (fun kv => kv.fst == id)).map (fun kv => kv.snd)

/-- Stage updates accepted by `PATCH /api/events/:id/pre-sale/stage/:stageIndex`. -/
structure StageUpdates where
  endDate : Option Int
  name : Option String
  price : Option Int
  ticketLimit : Option Int
  isActive : Option Bool
deriving DecidableEq, Repr

/-- Mongoose save-time validation of the stage paths a
`PATCH /:id/pre-sale/stage/:stageIndex` request modifies (`save()` validates
modified paths against the stage schema): `name` required and max 50,
`price` min 0, `ticketLimit` min 1.  A modified `endDate` already passed the
route's future-date check, so its `> now` validator holds. -/
def stageUpdatesValid (u : StageUpdates) (stage2 : PreSaleStage) : Bool :=
  (match u.name with
   | some _ => stage2.name ≠ "" && stage2.name.length ≤ 50
   | none => true) &&
  (match u.price with | some _ => stage2.price ≥ 0 | none => true) &&
  (match u.ticketLimit with | some _ => stage2.ticketLimit ≥ 1 | none => true)

/-- `PATCH /api/events/:id/pre-sale/stage/:stageIndex`: the save validates
the modified paths against the schema minima (so `ticketLimit` below 1 is a
ValidationError answered as a 500 with nothing persisted), but there is no
re-validation of `ticketLimit` against `ticketsSold`. -/
def patchPreSaleStage (event : Option Event) (stageIndex : Int) (u : StageUpdates)
    (now : Int) : HttpResponse × Option Event :=
  match event with
  | none => (⟨404, "Evento no encontrado"⟩, none)
  | some ev =>
    if stageIndex ≥ (ev.preSaleStages.length : Int) then
      (⟨400, "Índice de etapa no válido"⟩, some ev)
    else if stageIndex < 0 then
      (⟨500, "Cannot set properties of undefined"⟩, some ev)
    else
      match ev.preSaleStages.get? stageIndex.toNat with
      | none => (⟨500, "Cannot set properties of undefined"⟩, some ev)
      | some stage =>
        match u.endDate with
        | some d =>
          if d ≤ now then
            (⟨400, "La nueva fecha de fin debe ser futura"⟩, some ev)
          else
            let stage2 :=
              { stage with endDate := d,
                           name := (u.name.map trimStr).getD stage.name,
                           price := u.price.getD stage.price,
                           ticketLimit := u.ticketLimit.getD stage.ticketLimit,
                           isActive := u.isActive.getD stage.isActive }
            if !stageUpdatesValid u stage2 then
              (⟨500, "Event validation failed"⟩, some ev)
            else
              let ev2 := preSaveEvent now
                { ev with preSaleStages := ev.preSaleStages.set stageIndex.toNat stage2 }
              (⟨200, "Etapa de preventa actualizada exitosamente"⟩, some ev2)
        | none =>
          let stage2 :=
            { stage with name := (u.name.map trimStr).getD stage.name,
                         price := u.price.getD stage.price,
                         ticketLimit := u.ticketLimit.getD stage.ticketLimit,
                         isActive := u.isActive.getD stage.isActive }
          if !stageUpdatesValid u stage2 then
            (⟨500, "Event validation failed"⟩, some ev)
          else
            let ev2 := preSaveEvent now
              { ev with preSaleStages := ev.preSaleStages.set stageIndex.toNat stage2 }
            (⟨200, "Etapa de preventa actualizada exitosamente"⟩, some ev2)

/-- `PATCH /api/events/:id/free-tickets`: the save validates a modified
`quantity` against its min-0 validator only — quantity may be set below
`ticketsClaimed` without any check. -/
def patchFreeTickets (event : Option Event) (enabled : Option Bool) (quantity : Option Int)
    (now : Int) : HttpResponse × Option Event :=
  match event with
  | none => (⟨404, "Evento no encontrado"⟩, none)
  | some ev =>
    let ft := ev.freeTickets
    let ft2 := { ft with enabled := enabled.getD ft.enabled,
                         quantity := quantity.getD ft.quantity }
    let quantityInvalid : Bool := match quantity with | some q => q < 0 | none => false
    if quantityInvalid then
      (⟨500, "Event validation failed"⟩, some ev)
    else
      let ev2 := preSaveEvent now { ev with freeTickets := ft2 }
      (⟨200, "Configuración de entradas gratis actualizada exitosamente"⟩, some ev2)

/-! ## Unit price selection of `POST /api/mercadopago/create-preference` -/

/-- The price/stage selection block of the create-preference route (lines
computing `unitPrice`/`stageName`):  with no stage index in the metadata the
unit price stays `event.basePrice || event.price || 0` (the staged model has
no `price` field) and the stage name stays 'Precio regular'.  The error
values carry the route's error codes. -/
def preferenceUnitPrice (e : Event) (preStage : Option Int) (ticketsReq : Nat)
    (now : Int) : Except HttpResponse (Int × String) :=
  let unitPrice : Int := if e.basePrice ≠ 0 then e.basePrice else 0
  match preStage with
  | none => Except.ok (unitPrice, "Precio regular")
  | some idx =>
    let stageOpt := if idx < 0 then none else e.preSaleStages.get? idx.toNat
    match stageOpt with
    | some stage =>
      if stage.isActive && now < stage.endDate then
        if stage.ticketsSold + (ticketsReq : Int) > stage.ticketLimit then
          Except.error ⟨400, "STAGE_SOLD_OUT"⟩
        else
          Except.ok (stage.price, stage.name)
      else
        Except.error ⟨400, "STAGE_NOT_AVAILABLE"⟩
    | none => Except.error ⟨400, "STAGE_NOT_AVAILABLE"⟩

/-! ## Concrete sample documents (used by witnesses and counterexamples) -/

def tAna : TicketHolder := ⟨"Ana", "Perez", "", ""⟩

def stageW : PreSaleStage := ⟨"Etapa 1", 100, 10, 2, 5000, true⟩

def evStageW : Event :=
  { title := "Fiesta Bardo", date := 2000, location := "Club Niceto",
    image := "data:image/png;base64,AAAA", basePrice := 100,
    preSaleStages := [stageW], freeTickets := ⟨false, 0, 0⟩, status := "active" }

def evFreeW : Event :=
  { evStageW with preSaleStages := [], freeTickets := ⟨true, 5, 3⟩ }

def reqBaseW : ResvRequest :=
  { eventIdStr := "e1", eventTitle := "Fiesta Bardo", tickets := [tAna, tAna],
    isPaid := false, paymentMethod := none, totalAmount := 0, orderId := none,
    preSaleStageIndex := none, isFreeTicket := false }

def reqFreeW : ResvRequest := { reqBaseW with isFreeTicket := true }

def reqStageW (i : Int) : ResvRequest := { reqBaseW with preSaleStageIndex := some i }

def resvW : Reservation :=
  { eventId := "e1", eventTitle := "Fiesta Bardo", tickets := [tAna], totalTickets := 1,
    reservationCode := some "BARDOX1", status := "confirmed", preSaleStageIndex := none,
    isFreeTicket := false, orderId := some "ORD1", paymentStatus := "pending",
    paymentStatusDetail := none, paymentMethod := "mercadopago", paymentId := none,
    totalAmount := 0, isPaid := false, paidAt := none }

def payW : Payment :=
  { id := "p1", status := "approved", status_detail := "accredited",
    external_reference := "ORD1", transaction_amount := 200,
    metadata := ⟨"e1", "Fiesta Bardo", 1, none, "", ""⟩, payer := none }

def stW : SysState := ⟨[resvW], [("e1", evStageW)]⟩

def evC4 : Event := { evStageW with preSaleStages := [⟨"Etapa 1", 100, 1, 1, 5000, true⟩] }

def evC4Edit : Event :=
  { evStageW with preSaleStages := [⟨"Etapa 1", 100, 10, 5, 5000, true⟩] }

def mdC4 : PaymentMetadata := ⟨"e1", "Fiesta Bardo", 1, some 0, "", ""⟩

def resvNoCodeW : Reservation := { resvW with reservationCode := none }

def resvDupW : Reservation :=
  { resvW with reservationCode := some (genReservationCode 1000 "ab12") }

def evFree2W : Event :=
  preSaveEvent 1000 { evFreeW with freeTickets := ⟨true, 5, 5⟩ }

def reqEvW : CreateEventRequest :=
  { title := "  Fiesta Bardo  ", dateReq := some 5000, location := "Club Niceto",
    dj := "", info := "", basePrice := 100, image := "data:image/png;base64,AAAA",
    preSaleStagesReq := none, freeTicketsReq := none }

def evCreatedW : Event :=
  { title := "Fiesta Bardo", date := 5000, location := "Club Niceto",
    image := "data:image/png;base64,AAAA", basePrice := 100,
    preSaleStages := [], freeTickets := ⟨false, 0, 0⟩, status := "sold-out" }

/-! ## Helper lemmas -/

theorem find?_updateFirst (p : α → Bool) (f : α → α) (l : List α)
    (hf : ∀ a, p a = true → p (f a) = true) :
    (updateFirst p f l).find? p = (l.find? p).map f := by
  induction l with
  | nil => rfl
  | cons x xs ih =>
    cases hx : p x with
    | true => simp [updateFirst, hx, List.find?_cons, hf x hx]
    | false => simp [updateFirst, hx, List.find?_cons, ih]

theorem preSaveEvent_freeTickets (now : Int) (e : Event) :
    (preSaveEvent now e).freeTickets = e.freeTickets := by
  simp only [preSaveEvent]
  split <;> split <;> rfl

theorem preSaveEvent_stage_ticketsSold (now : Int) (e : Event) (i : Nat) :
    ((preSaveEvent now e).preSaleStages.get? i).map PreSaleStage.ticketsSold =
      (e.preSaleStages.get? i).map PreSaleStage.ticketsSold := by
  have hstages : (preSaveEvent now e).preSaleStages =
      e.preSaleStages.map (fun s => if s.endDate < now then { s with isActive := false } else s) := by
    simp only [preSaveEvent]
    split <;> split <;> rfl
  rw [hstages]
  simp only [List.get?_eq_getElem?, List.getElem?_map]
  cases e.preSaleStages[i]? with
  | none => rfl
  | some s => by_cases hcond : s.endDate < now <;> simp [hcond]

theorem postReservation_valid (req : ResvRequest) (ev : Event) (store : List Reservation)
    (now : Nat) (rand : String)
    (hid : req.eventIdStr ≠ "") (htl : req.eventTitle ≠ "")
    (hn0 : req.tickets.length ≠ 0) (hn4 : ¬ 4 < req.tickets.length)
    (hv : ticketValidationError req.tickets = none) :
    postReservation req (some ev) store now rand =
      (match allocateTickets req ev now with
       | Except.error resp => ⟨resp, some ev, store⟩
       | Except.ok ev2 =>
         match insertReservation store (saveReservation none (buildReservation req) now rand) with
         | Except.error _ =>
           ⟨⟨500, "Error al generar código de reserva único. Intente nuevamente."⟩,
             some ev2, store⟩
         | Except.ok (store2, _) =>
           ⟨⟨201, "Reserva creada exitosamente"⟩, some ev2, store2⟩) := by
  simp [postReservation, hid, htl, hn0, hn4, hv]

theorem newReservation_code (req : ResvRequest) (now : Nat) (rand : String) :
    (saveReservation none (buildReservation req) now rand).reservationCode =
      some (genReservationCode now rand) := by
  simp [saveReservation, buildReservation]

theorem insertReservation_fresh (store : List Reservation) (r : Reservation)
    (h : store.any (fun s => s.reservationCode == r.reservationCode) = false) :
    insertReservation store r = Except.ok (store ++ [r], r) := by
  simp [insertReservation, h]

/-! ## C5: webhook acknowledgment -/

/-- C5: for a notification of type 'payment' that reaches the dispatch step
(the `data` object is present, so `data.id` does not throw), the webhook
endpoint answers 200 'OK' whatever the gateway lookup result is and whatever
the processing step does — including when either throws; internal errors are
swallowed by the inner catch, never surfaced to the gateway. -/
theorem webhook_always_acknowledges (dataId : Option String)
    (fetch : Except String Payment)
    (dispatch : Payment → SysState → Except String SysState) (st : SysState)
    (h : dataId ≠ none) :
    (webhookHandler "payment" dataId fetch dispatch st).fst = ⟨200, "OK"⟩ := by
  cases dataId with
  | none => exact absurd rfl h
  | some d =>
    cases fetch with
    | error e => rfl
    | ok p =>
      cases hd : dispatch p st with
      | error e => simp [webhookHandler, hd]
      | ok st2 => simp [webhookHandler, hd]

theorem webhook_always_acknowledges_witness :
    ((some "123" : Option String) ≠ none) ∧
    (webhookHandler "payment" (some "123") (Except.error "MP timeout")
      (fun _ _ => Except.error "boom") ⟨[], []⟩).fst = ⟨200, "OK"⟩ :=
  ⟨by decide,
   webhook_always_acknowledges (some "123") (Except.error "MP timeout")
     (fun _ _ => Except.error "boom") ⟨[], []⟩ (by decide)⟩

/-! ## C8: base-price frame property -/

/-- C8: a reservation request with neither a stage index nor the free-ticket
flag leaves the event document unchanged (no counter is mutated), and the
create-preference price selection uses the event's `basePrice` as unit
price. -/
theorem basePrice_frame (req : ResvRequest) (ev : Event) (store : List Reservation)
    (now : Nat) (rand : String) (ticketsReq : Nat) (nowP : Int)
    (hfree : req.isFreeTicket = false) (hidx : req.preSaleStageIndex = none) :
    (postReservation req (some ev) store now rand).event = some ev ∧
    preferenceUnitPrice ev none ticketsReq nowP =
      Except.ok (ev.basePrice, "Precio regular") := by
  constructor
  · have halloc : allocateTickets req ev now = Except.ok ev := by
      simp [allocateTickets, hfree, hidx]
    unfold postReservation
    split
    · rfl
    · dsimp only
      split
      · rfl
      · split
        · rfl
        · rw [halloc]
          dsimp only
          split <;> rfl
  · unfold preferenceUnitPrice
    by_cases hbp : ev.basePrice ≠ 0
    · simp [hbp]
    · push_neg at hbp
      simp [hbp]

theorem basePrice_frame_witness :
    ((reqBaseW.isFreeTicket = false) ∧ (reqBaseW.preSaleStageIndex = none)) ∧
    ((postReservation reqBaseW (some evStageW) [] 1000 "ab12").event = some evStageW ∧
      preferenceUnitPrice evStageW none 2 1000 =
        Except.ok (evStageW.basePrice, "Precio regular")) :=
  ⟨⟨rfl, rfl⟩, basePrice_frame reqBaseW evStageW [] 1000 "ab12" 2 1000 rfl rfl⟩

/-! ## C1: free-ticket allocation -/

/-- C1: on the free-ticket path of `POST /api/reservations` (1–4 valid
tickets), a disabled free-ticket config fails with the disabled error, a
config with `quantity > 0` and `ticketsClaimed + n > quantity` fails with the
sold-out error (both leaving event and store untouched); otherwise
`ticketsClaimed` is incremented by exactly `n` and the event persisted — in
particular a `quantity = 0` config never fails with the capacity error. -/
theorem freeTicket_allocation (req : ResvRequest) (ev : Event) (store : List Reservation)
    (now : Nat) (rand : String)
    (hfree : req.isFreeTicket = true)
    (hid : req.eventIdStr ≠ "") (htl : req.eventTitle ≠ "")
    (hn0 : req.tickets.length ≠ 0) (hn4 : ¬ 4 < req.tickets.length)
    (hv : ticketValidationError req.tickets = none)
    (hfreshCode : store.any (fun s =>
      s.reservationCode == some (genReservationCode now rand)) = false) :
    (ev.freeTickets.enabled = false →
      postReservation req (some ev) store now rand =
        ⟨⟨400, "Este evento no tiene entradas gratis disponibles"⟩, some ev, store⟩) ∧
    (ev.freeTickets.enabled = true → 0 < ev.freeTickets.quantity →
      ev.freeTickets.quantity <
        ev.freeTickets.ticketsClaimed + (req.tickets.length : Int) →
      postReservation req (some ev) store now rand =
        ⟨⟨400, "No hay suficientes entradas gratis disponibles"⟩, some ev, store⟩) ∧
    (ev.freeTickets.enabled = true →
      (ev.freeTickets.quantity ≤ 0 ∨
        ev.freeTickets.ticketsClaimed + (req.tickets.length : Int) ≤
          ev.freeTickets.quantity) →
      ∃ ev2, postReservation req (some ev) store now rand =
          ⟨⟨201, "Reserva creada exitosamente"⟩, some ev2,
            store ++ [saveReservation none (buildReservation req) now rand]⟩ ∧
        ev2.freeTickets.ticketsClaimed =
          ev.freeTickets.ticketsClaimed + (req.tickets.length : Int)) ∧
    (ev.freeTickets.enabled = true → ev.freeTickets.quantity = 0 →
      (postReservation req (some ev) store now rand).resp ≠
        ⟨400, "No hay suficientes entradas gratis disponibles"⟩) := by
  rw [postReservation_valid req ev store now rand hid htl hn0 hn4 hv]
  have hsuccess : ∀ hcases : ev.freeTickets.quantity ≤ 0 ∨
      ev.freeTickets.ticketsClaimed + (req.tickets.length : Int) ≤ ev.freeTickets.quantity,
      ev.freeTickets.enabled = true →
      allocateTickets req ev now = Except.ok (preSaveEvent (Int.ofNat now)
        { ev with freeTickets :=
            { ev.freeTickets with ticketsClaimed :=
                ev.freeTickets.ticketsClaimed + (req.tickets.length : Int) } }) := by
    intro hcases hen
    rcases hcases with hq | hle
    · have : ¬ 0 < ev.freeTickets.quantity := not_lt.mpr hq
      simp [allocateTickets, hfree, hen, this]
    · have : ¬ ev.freeTickets.quantity <
          ev.freeTickets.ticketsClaimed + (req.tickets.length : Int) := not_lt.mpr hle
      simp [allocateTickets, hfree, hen, this]
  have hinsert : insertReservation store (saveReservation none (buildReservation req) now rand) =
      Except.ok (store ++ [saveReservation none (buildReservation req) now rand],
        saveReservation none (buildReservation req) now rand) := by
    apply insertReservation_fresh
    rw [newReservation_code]
    exact hfreshCode
  refine ⟨?_, ?_, ?_, ?_⟩
  · intro hdis
    simp [allocateTickets, hfree, hdis]
  · intro hen hq hover
    simp [allocateTickets, hfree, hen, hq, hover]
  · intro hen hcases
    rw [hsuccess hcases hen]
    dsimp only
    rw [hinsert]
    refine ⟨_, rfl, ?_⟩
    rw [preSaveEvent_freeTickets]
  · intro hen hq0
    rw [hsuccess (Or.inl (le_of_eq hq0)) hen]
    dsimp only
    rw [hinsert]
    dsimp only
    decide

theorem freeTicket_allocation_witness :
    (evFreeW.freeTickets.enabled = true ∧
      (evFreeW.freeTickets.quantity ≤ 0 ∨
        evFreeW.freeTickets.ticketsClaimed + (reqFreeW.tickets.length : Int) ≤
          evFreeW.freeTickets.quantity)) ∧
    ∃ ev2, postReservation reqFreeW (some evFreeW) [] 1000 "ab12" =
        ⟨⟨201, "Reserva creada exitosamente"⟩, some ev2,
          [] ++ [saveReservation none (buildReservation reqFreeW) 1000 "ab12"]⟩ ∧
      ev2.freeTickets.ticketsClaimed =
        evFreeW.freeTickets.ticketsClaimed + (reqFreeW.tickets.length : Int) :=
  ⟨⟨rfl, by decide⟩,
   (freeTicket_allocation reqFreeW evFreeW [] 1000 "ab12" rfl (by decide) (by decide)
      (by decide) (by decide) (by decide) (by decide)).2.2.1 rfl (by decide)⟩

/-! ## C2: pre-sale allocation -/

/-- C2 counterexample: a negative stage index does not fail with the
invalid-stage error — the undefined stage access throws a TypeError and the
handler answers a generic 500. -/
theorem preSale_negIndex_counterexample :
    (postReservation (reqStageW (-1)) (some evStageW) [] 1000 "ab12").resp.status = 500 ∧
    (postReservation (reqStageW (-1)) (some evStageW) [] 1000 "ab12").resp ≠
      ⟨400, "Etapa de preventa no válida"⟩ := by
  decide

/-- C2 (amended): with a stage index supplied, an index `≥` the stage-list
length fails with the invalid-stage error, a negative index produces a
generic 500 (TypeError on the undefined stage) rather than the invalid-stage
error, and for an in-range index the stage-inactive, stage-expired and
stage-sold-out checks apply in that order, the successful case incrementing
that stage's `ticketsSold` by exactly `n` and persisting the event. -/
theorem preSale_allocation (req : ResvRequest) (ev : Event) (store : List Reservation)
    (now : Nat) (rand : String) (idx : Int)
    (hfree : req.isFreeTicket = false)
    (hidx : req.preSaleStageIndex = some idx)
    (hid : req.eventIdStr ≠ "") (htl : req.eventTitle ≠ "")
    (hn0 : req.tickets.length ≠ 0) (hn4 : ¬ 4 < req.tickets.length)
    (hv : ticketValidationError req.tickets = none)
    (hfreshCode : store.any (fun s =>
      s.reservationCode == some (genReservationCode now rand)) = false) :
    ((ev.preSaleStages.length : Int) ≤ idx →
      postReservation req (some ev) store now rand =
        ⟨⟨400, "Etapa de preventa no válida"⟩, some ev, store⟩) ∧
    (idx < 0 →
      postReservation req (some ev) store now rand =
        ⟨⟨500, "Cannot read properties of undefined (reading 'isActive')"⟩,
          some ev, store⟩) ∧
    (∀ stage, ev.preSaleStages.get? idx.toNat = some stage → 0 ≤ idx →
      (stage.isActive = false →
        postReservation req (some ev) store now rand =
          ⟨⟨400, "Esta etapa de preventa no está activa"⟩, some ev, store⟩) ∧
      (stage.isActive = true → stage.endDate < (now : Int) →
        postReservation req (some ev) store now rand =
          ⟨⟨400, "Esta etapa de preventa ha expirado"⟩, some ev, store⟩) ∧
      (stage.isActive = true → ¬ stage.endDate < (now : Int) →
        stage.ticketLimit < stage.ticketsSold + (req.tickets.length : Int) →
        postReservation req (some ev) store now rand =
          ⟨⟨400, "No hay suficientes entradas disponibles en esta etapa"⟩,
            some ev, store⟩) ∧
      (stage.isActive = true → ¬ stage.endDate < (now : Int) →
        stage.ticketsSold + (req.tickets.length : Int) ≤ stage.ticketLimit →
        ∃ ev2, postReservation req (some ev) store now rand =
            ⟨⟨201, "Reserva creada exitosamente"⟩, some ev2,
              store ++ [saveReservation none (buildReservation req) now rand]⟩ ∧
          (ev2.preSaleStages.get? idx.toNat).map PreSaleStage.ticketsSold =
            some (stage.ticketsSold + (req.tickets.length : Int)))) := by
  rw [postReservation_valid req ev store now rand hid htl hn0 hn4 hv]
  have hinsert : insertReservation store (saveReservation none (buildReservation req) now rand) =
      Except.ok (store ++ [saveReservation none (buildReservation req) now rand],
        saveReservation none (buildReservation req) now rand) := by
    apply insertReservation_fresh
    rw [newReservation_code]
    exact hfreshCode
  refine ⟨?_, ?_, ?_⟩
  · intro hge
    simp [allocateTickets, hfree, hidx, hge]
  · intro hneg
    have hnotge : ¬ (ev.preSaleStages.length : Int) ≤ idx := by
      intro hge
      exact absurd (lt_of_lt_of_le hneg (le_trans (by positivity) hge)) (lt_irrefl idx)
    simp [allocateTickets, hfree, hidx, hnotge, hneg]
  · intro stage hstage hpos
    rw [List.get?_eq_getElem?] at hstage
    have hlt : idx.toNat < ev.preSaleStages.length := (List.getElem?_eq_some.mp hstage).1
    have hnotge : ¬ (ev.preSaleStages.length : Int) ≤ idx := by
      intro hge
      have hcast : (idx.toNat : Int) < (ev.preSaleStages.length : Int) := by
        exact_mod_cast hlt
      rw [Int.toNat_of_nonneg hpos] at hcast
      exact absurd (lt_of_lt_of_le hcast hge) (lt_irrefl idx)
    have hnotneg : ¬ idx < 0 := not_lt.mpr hpos
    refine ⟨?_, ?_, ?_, ?_⟩
    · intro hinactive
      simp [allocateTickets, hfree, hidx, hnotge, hnotneg, hstage, hinactive]
    · intro hactive hexpired
      simp [allocateTickets, hfree, hidx, hnotge, hnotneg, hstage, hactive, hexpired]
    · intro hactive hnotexp hover
      simp [allocateTickets, hfree, hidx, hnotge, hnotneg, hstage, hactive, hnotexp, hover]
    · intro hactive hnotexp hle
      have hnotover : ¬ stage.ticketLimit <
          stage.ticketsSold + (req.tickets.length : Int) := not_lt.mpr hle
      have halloc : allocateTickets req ev now = Except.ok (preSaveEvent (now : Int)
          { ev with preSaleStages := (ev.preSaleStages.set idx.toNat {
              stage with ticketsSold :=
                stage.ticketsSold + (req.tickets.length : Int) }) }) := by
        simp [allocateTickets, hfree, hidx, hnotge, hnotneg, hstage, hactive, hnotexp,
          hnotover]
      rw [halloc]
      dsimp only
      rw [hinsert]
      refine ⟨_, rfl, ?_⟩
      rw [preSaveEvent_stage_ticketsSold]
      simp [List.get?_eq_getElem?, List.getElem?_set_eq_of_lt _ hlt]

theorem preSale_allocation_witness :
    (stageW.isActive = true ∧ ¬ stageW.endDate < (1000 : Int) ∧
      stageW.ticketsSold + ((reqStageW 0).tickets.length : Int) ≤ stageW.ticketLimit) ∧
    ∃ ev2, postReservation (reqStageW 0) (some evStageW) [] 1000 "ab12" =
        ⟨⟨201, "Reserva creada exitosamente"⟩, some ev2,
          [] ++ [saveReservation none (buildReservation (reqStageW 0)) 1000 "ab12"]⟩ ∧
      (ev2.preSaleStages.get? (Int.toNat 0)).map PreSaleStage.ticketsSold =
        some (stageW.ticketsSold + ((reqStageW 0).tickets.length : Int)) :=
  ⟨⟨rfl, by decide, by decide⟩,
   ((preSale_allocation (reqStageW 0) evStageW [] 1000 "ab12" 0 rfl rfl (by decide)
        (by decide) (by decide) (by decide) (by decide) (by decide)).2.2 stageW
      (by decide) (by decide)).2.2.2 rfl (by decide) (by decide)⟩

/-! ## C3: webhook idempotence for approved payments -/

theorem applyApprovedUpdate_fields (p : Payment) (r : Reservation) (now : Nat) :
    (applyApprovedUpdate p r now).paymentStatus = "approved" ∧
    (applyApprovedUpdate p r now).isPaid = true ∧
    (applyApprovedUpdate p r now).paidAt = some (Int.ofNat now) ∧
    (applyApprovedUpdate p r now).orderId = r.orderId := by
  simp only [applyApprovedUpdate]
  split <;> exact ⟨rfl, rfl, rfl, rfl⟩

theorem saveReservation_paidAt_some (prev : Option Reservation) (r : Reservation)
    (now : Nat) (rand : String) (t : Int) (h : r.paidAt = some t) :
    (saveReservation prev r now rand).paymentStatus = r.paymentStatus ∧
    (saveReservation prev r now rand).isPaid = r.isPaid ∧
    (saveReservation prev r now rand).paidAt = some t ∧
    (saveReservation prev r now rand).orderId = r.orderId := by
  simp only [saveReservation]
  by_cases hc : r.reservationCode = none <;> simp [hc, h]

/-- One approved delivery against an existing reservation: the reservation
keeps its position, ends approved and paid, and `paidAt` is stamped with the
delivery time. -/
theorem processApproved_existing (p : Payment) (st : SysState) (r : Reservation)
    (now : Nat) (rand : String)
    (hfound : findByOrderId p.external_reference st.reservations = some r) :
    findByOrderId p.external_reference
        (processApprovedPayment p st now rand).reservations =
      some (saveReservation (some r) (applyApprovedUpdate p r now) now rand) ∧
    ∀ r1, findByOrderId p.external_reference
        (processApprovedPayment p st now rand).reservations = some r1 →
      r1.paymentStatus = "approved" ∧ r1.isPaid = true ∧
      r1.paidAt = some (Int.ofNat now) := by
  obtain ⟨hps, hip, hpa, hoid⟩ := applyApprovedUpdate_fields p r now
  obtain ⟨sps, sip, spa, soid⟩ :=
    saveReservation_paidAt_some (some r) (applyApprovedUpdate p r now) now rand
      (Int.ofNat now) hpa
  have hfound2 : st.reservations.find?
      (fun s => s.orderId == some p.external_reference) = some r := hfound
  have hpredr : (r.orderId == some p.external_reference) = true := by
    have hmem := List.find?_some hfound2
    simpa using hmem
  have hfind : findByOrderId p.external_reference
      (processApprovedPayment p st now rand).reservations =
      some (saveReservation (some r) (applyApprovedUpdate p r now) now rand) := by
    simp only [processApprovedPayment, hfound]
    unfold findByOrderId
    rw [find?_updateFirst]
    · unfold findByOrderId at hfound
      rw [hfound]
      rfl
    · intro a _
      rw [soid, hoid]
      exact hpredr
  refine ⟨hfind, ?_⟩
  intro r1 hr1
  rw [hfind] at hr1
  obtain rfl : saveReservation (some r) (applyApprovedUpdate p r now) now rand = r1 :=
    Option.some_injective _ hr1
  exact ⟨sps.trans hps, sip.trans hip, spa⟩

/-- C3 counterexample: redelivering the same approved notification advances
`paidAt` — after a first delivery at time 100 and a redelivery at time 200
the stored `paidAt` is 200, not the first-delivery stamp. -/
theorem approved_redelivery_counterexample :
    ((processApprovedPayment payW stW 100 "r1").reservations.head?.map
      Reservation.paidAt) = some (some 100) ∧
    ((processApprovedPayment payW (processApprovedPayment payW stW 100 "r1")
        200 "r2").reservations.head?.map Reservation.paidAt) = some (some 200) ∧
    (some (200 : Int) : Option Int) ≠ some (100 : Int) := by
  decide

/-- C3 (amended): redelivering the same approved-payment notification leaves
the reservation in the same terminal state (paymentStatus approved,
isPaid true) after either delivery, but `paidAt` is overwritten with each
delivery's time: after the second delivery it holds the second delivery
time, not the first stamp. -/
theorem approved_redelivery (p : Payment) (st : SysState) (r : Reservation)
    (now1 now2 : Nat) (rand1 rand2 : String)
    (hfound : findByOrderId p.external_reference st.reservations = some r) :
    ∃ r1, findByOrderId p.external_reference
        (processApprovedPayment p st now1 rand1).reservations = some r1 ∧
      r1.paymentStatus = "approved" ∧ r1.isPaid = true ∧
      r1.paidAt = some (Int.ofNat now1) ∧
      ∃ r2, findByOrderId p.external_reference
          (processApprovedPayment p (processApprovedPayment p st now1 rand1)
            now2 rand2).reservations = some r2 ∧
        r2.paymentStatus = "approved" ∧ r2.isPaid = true ∧
        r2.paidAt = some (Int.ofNat now2) := by
  obtain ⟨hfind1, hprops1⟩ := processApproved_existing p st r now1 rand1 hfound
  obtain ⟨h1ps, h1ip, h1pa⟩ := hprops1 _ hfind1
  obtain ⟨hfind2, hprops2⟩ :=
    processApproved_existing p (processApprovedPayment p st now1 rand1) _ now2 rand2 hfind1
  obtain ⟨h2ps, h2ip, h2pa⟩ := hprops2 _ hfind2
  exact ⟨_, hfind1, h1ps, h1ip, h1pa, _, hfind2, h2ps, h2ip, h2pa⟩

theorem approved_redelivery_witness :
    (findByOrderId payW.external_reference stW.reservations = some resvW) ∧
    ∃ r1, findByOrderId payW.external_reference
        (processApprovedPayment payW stW 100 "r1").reservations = some r1 ∧
      r1.paymentStatus = "approved" ∧ r1.isPaid = true ∧
      r1.paidAt = some (Int.ofNat 100) ∧
      ∃ r2, findByOrderId payW.external_reference
          (processApprovedPayment payW (processApprovedPayment payW stW 100 "r1")
            200 "r2").reservations = some r2 ∧
        r2.paymentStatus = "approved" ∧ r2.isPaid = true ∧
        r2.paidAt = some (Int.ofNat 200) :=
  ⟨by decide, approved_redelivery payW stW resvW 100 200 "r1" "r2" (by decide)⟩

/-! ## C4: counter-bound invariant -/

/-- The counter bounds the spec's data model asserts: each stage satisfies
`0 ≤ ticketsSold ≤ ticketLimit`, and `ticketsClaimed ≤ quantity`
whenever `quantity > 0` (with `ticketsClaimed` non-negative). -/
def eventInv (e : Event) : Prop :=
  (∀ s ∈ e.preSaleStages, 0 ≤ s.ticketsSold ∧ s.ticketsSold ≤ s.ticketLimit) ∧
  (0 < e.freeTickets.quantity → e.freeTickets.ticketsClaimed ≤ e.freeTickets.quantity) ∧
  0 ≤ e.freeTickets.ticketsClaimed

instance (e : Event) : Decidable (eventInv e) := by
  unfold eventInv
  infer_instance

theorem eventInv_stages_counters_map (g : PreSaleStage → PreSaleStage) (e : Event)
    (hg : ∀ s, (g s).ticketsSold = s.ticketsSold ∧ (g s).ticketLimit = s.ticketLimit)
    (h : eventInv e) :
    eventInv { e with preSaleStages := e.preSaleStages.map g } := by
  obtain ⟨hst, hq, hc⟩ := h
  refine ⟨?_, hq, hc⟩
  intro s hs
  obtain ⟨s0, hs0, rfl⟩ := List.mem_map.mp hs
  have hbound := hst s0 hs0
  rw [(hg s0).1, (hg s0).2]
  exact hbound

theorem eventInv_preSaveEvent (now : Int) (e : Event) (h : eventInv e) :
    eventInv (preSaveEvent now e) := by
  have hrepr : preSaveEvent now e =
      { e with
        status := (preSaveEvent now e).status,
        preSaleStages := e.preSaleStages.map
          (fun s => if s.endDate < now then { s with isActive := false } else s) } := by
    simp only [preSaveEvent]
    split <;> split <;> rfl
  rw [hrepr]
  exact eventInv_stages_counters_map _
    { e with status := (preSaveEvent now e).status }
    (fun s => by split <;> exact ⟨rfl, rfl⟩) h

theorem eventInv_allocateTickets (req : ResvRequest) (ev ev2 : Event) (now : Nat)
    (h : eventInv ev) (halloc : allocateTickets req ev now = Except.ok ev2) :
    eventInv ev2 := by
  obtain ⟨hst, hq, hc⟩ := h
  unfold allocateTickets at halloc
  split at halloc
  · -- free-ticket branch
    split at halloc
    · cases halloc
    · split at halloc
      · cases halloc
      · rename_i hguard
        obtain rfl := Except.ok.inj halloc
        apply eventInv_preSaveEvent
        refine ⟨hst, ?_, ?_⟩ <;> dsimp only
        · intro hqpos
          simp only [Bool.and_eq_true, decide_eq_true_eq, not_and, not_lt] at hguard
          exact hguard hqpos
        · have hn : (0 : Int) ≤ (req.tickets.length : Int) := Int.ofNat_nonneg _
          omega
  · -- pre-sale / default branch
    split at halloc
    · obtain rfl := Except.ok.inj halloc
      exact ⟨hst, hq, hc⟩
    · split at halloc
      · cases halloc
      · split at halloc
        · cases halloc
        · split at halloc
          · cases halloc
          · rename_i idx hnotge hnotneg stage hstage
            rw [List.get?_eq_getElem?] at hstage
            split at halloc
            · cases halloc
            · split at halloc
              · cases halloc
              · split at halloc
                · cases halloc
                · rename_i hover
                  obtain rfl := Except.ok.inj halloc
                  apply eventInv_preSaveEvent
                  refine ⟨?_, hq, hc⟩
                  intro s hs
                  rcases List.mem_or_eq_of_mem_set hs with hmem | rfl
                  · exact hst s hmem
                  · have hmem0 : stage ∈ ev.preSaleStages := List.getElem?_mem hstage
                    have hbound := hst stage hmem0
                    simp only [not_lt] at hover
                    constructor
                    · have : (0 : Int) ≤ (req.tickets.length : Int) := Int.ofNat_nonneg _
                      have := hbound.1
                      dsimp only
                      omega
                    · dsimp only
                      omega

theorem postReservation_event_cases (req : ResvRequest) (ev ev2 : Event)
    (store : List Reservation) (now : Nat) (rand : String)
    (h : (postReservation req (some ev) store now rand).event = some ev2) :
    ev2 = ev ∨ allocateTickets req ev now = Except.ok ev2 := by
  unfold postReservation at h
  split at h
  · exact Or.inl (Option.some_injective _ h).symm
  · dsimp only at h
    split at h
    · exact Or.inl (Option.some_injective _ h).symm
    · split at h
      · exact Or.inl (Option.some_injective _ h).symm
      · cases halloc : allocateTickets req ev now with
        | error resp =>
          rw [halloc] at h
          dsimp only at h
          exact Or.inl (Option.some_injective _ h).symm
        | ok evx =>
          rw [halloc] at h
          dsimp only at h
          split at h
          all_goals
            right
            exact congrArg Except.ok (Option.some_injective _ h)

/-- Setting `ticketLimit` to 0 through the stage-edit endpoint is rejected
by the schema's min-1 validator at save time: the route answers 500 and the
event is not persisted. -/
theorem patchPreSaleStage_limit0_rejected :
    patchPreSaleStage (some evC4Edit) 0 ⟨none, none, none, some 0, none⟩ 1000 =
      (⟨500, "Event validation failed"⟩, some evC4Edit) := by
  decide

/-- C4 counterexample: starting from counter-bound-respecting events, the
webhook-driven stage update pushes `ticketsSold` to 2 with `ticketLimit` 1,
a stage edit lowers `ticketLimit` to 1 under `ticketsSold` 5 (the min-1
schema validator passes, so the update persists), and a free-ticket edit
sets `quantity` 1 under `ticketsClaimed` 3 — three system operations that do
not preserve the invariant. -/
theorem counter_bounds_counterexample :
    eventInv evC4 ∧
    ((updateEventAfterPayment mdC4 1 1000 [("e1", evC4)]).map
      (fun kv => kv.snd.preSaleStages.map (fun s => (s.ticketsSold, s.ticketLimit)))) =
        [[(2, 1)]] ∧ ¬ ((2 : Int) ≤ 1) ∧
    eventInv evC4Edit ∧
    ((patchPreSaleStage (some evC4Edit) 0 ⟨none, none, none, some 1, none⟩ 1000).snd.map
      (fun e => e.preSaleStages.map (fun s => (s.ticketsSold, s.ticketLimit)))) =
        some [(5, 1)] ∧ ¬ ((5 : Int) ≤ 1) ∧
    eventInv evFreeW ∧
    ((patchFreeTickets (some evFreeW) none (some 1) 1000).snd.map
      (fun e => (e.freeTickets.quantity, e.freeTickets.ticketsClaimed))) =
        some (1, 3) ∧ ¬ ((3 : Int) ≤ 1) := by
  decide

/-- C4 (amended): reservation creation (both allocation branches of
`POST /api/reservations`) and the staged status sweep preserve the counter
bounds; the webhook-driven stage update and the stage/free-ticket edit
endpoints perform no limit re-check and can violate them. -/
theorem counter_bounds_preserved (req : ResvRequest) (ev ev2 : Event)
    (store : List Reservation) (now : Nat) (rand : String)
    (nowS : Int) (evs : List Event)
    (hinv : eventInv ev)
    (hev2 : (postReservation req (some ev) store now rand).event = some ev2)
    (hinvs : ∀ e ∈ evs, eventInv e) :
    eventInv ev2 ∧ ∀ e2 ∈ stagedUpdateEventStatuses nowS evs, eventInv e2 := by
  constructor
  · rcases postReservation_event_cases req ev ev2 store now rand hev2 with rfl | halloc
    · exact hinv
    · exact eventInv_allocateTickets req ev ev2 now hinv halloc
  · intro e2 he2
    unfold stagedUpdateEventStatuses at he2
    obtain ⟨e1, he1, rfl⟩ := List.mem_map.mp he2
    obtain ⟨e0, he0, rfl⟩ := List.mem_map.mp he1
    have hinv0 : eventInv e0 := hinvs e0 he0
    set ec := (if e0.date < nowS && e0.status == "active"
        then { e0 with status := "completed" } else e0) with hE
    have hinv1 : eventInv ec := by
      rw [hE]
      split <;> exact hinv0
    split
    · exact eventInv_preSaveEvent nowS _
        (eventInv_stages_counters_map _ ec (fun s => by split <;> exact ⟨rfl, rfl⟩) hinv1)
    · exact hinv1

theorem counter_bounds_preserved_witness :
    (eventInv evFreeW ∧
      (postReservation reqFreeW (some evFreeW) [] 1000 "ab12").event =
        some ((postReservation reqFreeW (some evFreeW) [] 1000 "ab12").event.getD evFreeW)) ∧
    (eventInv ((postReservation reqFreeW (some evFreeW) [] 1000 "ab12").event.getD evFreeW) ∧
      ∀ e2 ∈ stagedUpdateEventStatuses 1000 [evStageW], eventInv e2) :=
  ⟨⟨by decide, by decide⟩,
   counter_bounds_preserved reqFreeW evFreeW _ [] 1000 "ab12" 1000 [evStageW]
     (by decide) (by decide) (by decide)⟩

/-! ## C6: status sweeper Rule 2 -/

/-- C7: a reservation saved without a code receives
`('BARDO' + now in base 36 + random suffix).toUpperCase()`; a code collision
against the unique index makes the creation endpoint answer the retryable
500 ('Intente nuevamente') and leaves the stored reservations untouched —
no silent overwrite. -/
theorem reservationCode_unique_retry (prev : Option Reservation) (r : Reservation)
    (nowA : Nat) (randA : String)
    (req : ResvRequest) (ev ev2 : Event) (store : List Reservation)
    (now : Nat) (rand : String)
    (hcode : r.reservationCode = none)
    (hid : req.eventIdStr ≠ "") (htl : req.eventTitle ≠ "")
    (hn0 : req.tickets.length ≠ 0) (hn4 : ¬ 4 < req.tickets.length)
    (hv : ticketValidationError req.tickets = none)
    (halloc : allocateTickets req ev now = Except.ok ev2)
    (hdup : store.any (fun s =>
      s.reservationCode == some (genReservationCode now rand)) = true) :
    (saveReservation prev r nowA randA).reservationCode =
      some (genReservationCode nowA randA) ∧
    genReservationCode nowA randA = toUpperStr ("BARDO" ++ natToBase36 nowA ++ randA) ∧
    postReservation req (some ev) store now rand =
      ⟨⟨500, "Error al generar código de reserva único. Intente nuevamente."⟩,
        some ev2, store⟩ := by
  refine ⟨?_, rfl, ?_⟩
  · simp only [saveReservation]
    rw [if_pos hcode]
    split <;> rfl
  · rw [postReservation_valid req ev store now rand hid htl hn0 hn4 hv, halloc]
    have hins : insertReservation store
        (saveReservation none (buildReservation req) now rand) = Except.error () := by
      unfold insertReservation
      rw [newReservation_code]
      simp [hdup]
    dsimp only
    rw [hins]

theorem reservationCode_unique_retry_witness :
    ((resvNoCodeW.reservationCode = none) ∧
      [resvDupW].any (fun s =>
        s.reservationCode == some (genReservationCode 1000 "ab12")) = true) ∧
    ((saveReservation none resvNoCodeW 1000 "ab12").reservationCode =
        some (genReservationCode 1000 "ab12") ∧
      genReservationCode 1000 "ab12" = toUpperStr ("BARDO" ++ natToBase36 1000 ++ "ab12") ∧
      postReservation reqFreeW (some evFreeW) [resvDupW] 1000 "ab12" =
        ⟨⟨500, "Error al generar código de reserva único. Intente nuevamente."⟩,
          some evFree2W, [resvDupW]⟩) :=
  ⟨⟨rfl, by decide⟩,
   reservationCode_unique_retry none resvNoCodeW 1000 "ab12" reqFreeW evFreeW evFree2W
     [resvDupW] 1000 "ab12" rfl (by decide) (by decide) (by decide) (by decide)
     (by decide) (by rfl) (by decide)⟩

/-! ## C9: event create/fetch round trip -/

/-- C9 counterexample: an event created with a whitespace-padded title is
stored (and hence fetched) with the title trimmed — the round trip does not
return the submitted title unchanged. -/
theorem event_roundTrip_counterexample :
    ((createEvent reqEvW 1000).toOption.map Event.title) = some "Fiesta Bardo" ∧
    reqEvW.title = "  Fiesta Bardo  " ∧
    ("Fiesta Bardo" : String) ≠ "  Fiesta Bardo  " := by
  decide

theorem preSaveEvent_core_fields (now : Int) (e : Event) :
    (preSaveEvent now e).title = e.title ∧ (preSaveEvent now e).date = e.date ∧
    (preSaveEvent now e).location = e.location ∧ (preSaveEvent now e).image = e.image := by
  simp only [preSaveEvent]
  split <;> split <;> exact ⟨rfl, rfl, rfl, rfl⟩

/-- C9 (amended): a successfully created event stores `title.trim()`, the
submitted date, `location.trim()` and the image unchanged, and fetching it
by id returns that stored document (so the round trip is the identity
exactly when title and location carry no surrounding whitespace); a past
date fails creation with the date-validation 400 and nothing is stored. -/
theorem event_roundTrip (req : CreateEventRequest) (now d : Int) (e : Event) (id : String) :
    (createEvent req now = Except.ok e →
      e.title = trimStr req.title ∧ req.dateReq = some e.date ∧
      e.location = trimStr req.location ∧ e.image = req.image ∧
      findEventById [(id, e)] id = some e) ∧
    (req.title ≠ "" → req.dateReq = some d → req.location ≠ "" → req.image ≠ "" →
      startsWithStr req.image "data:image/" = true → matchesDataBase64 req.image = true →
      d < now →
      createEvent req now =
        Except.error ⟨400, "La fecha del evento no puede ser en el pasado"⟩) := by
  constructor
  · intro h
    unfold createEvent at h
    split at h
    · cases h
    · split at h
      · cases h
      · split at h
        · cases h
        · split at h
          · cases h
          · rename_i eventDate hdatereq
            split at h
            · cases h
            · split at h
              · cases h
              · split at h
                · cases h
                · dsimp only at h
                  split at h
                  · cases h
                  · obtain rfl := (Except.ok.inj h).symm
                    obtain ⟨ht, hd, hl, hi⟩ := preSaveEvent_core_fields now
                      { title := trimStr req.title, date := eventDate,
                        location := trimStr req.location, image := req.image,
                        basePrice := req.basePrice,
                        preSaleStages := (req.preSaleStagesReq.getD []).map (fun s =>
                          { name := s.name, price := s.price, ticketLimit := s.ticketLimit,
                            ticketsSold := 0, endDate := s.endDate, isActive := true }),
                        freeTickets := req.freeTicketsReq.getD ⟨false, 0, 0⟩,
                        status := "active" }
                    refine ⟨ht, ?_, hl, hi, by simp [findEventById]⟩
                    rw [hd, hdatereq]
  · intro ht hdate hl hi hstart hmatch hpast
    unfold createEvent
    rw [hdate]
    simp [ht, hl, hi, hstart, hmatch, hdate, hpast]

theorem event_roundTrip_witness :
    (createEvent reqEvW 1000 = Except.ok evCreatedW) ∧
    (evCreatedW.title = trimStr reqEvW.title ∧ reqEvW.dateReq = some evCreatedW.date ∧
      evCreatedW.location = trimStr reqEvW.location ∧ evCreatedW.image = reqEvW.image ∧
      findEventById [("id1", evCreatedW)] "id1" = some evCreatedW) :=
  ⟨by rfl, (event_roundTrip reqEvW 1000 0 evCreatedW "id1").1 (by rfl)⟩

/-! ## C10: non-approved webhook statuses never create a reservation -/

/-- C10: when no reservation carries the notification's order id, a
'rejected', 'cancelled', 'pending' or 'in_process' payment notification is a
silent no-op (state unchanged, 200 acknowledgment); only an 'approved'
notification lazily creates a reservation for the unseen order id. -/
theorem nonApproved_webhook_no_create (p : Payment) (st : SysState) (did : String)
    (now : Nat) (rand : String)
    (hmiss : findByOrderId p.external_reference st.reservations = none) :
    ((p.status = "rejected" ∨ p.status = "cancelled" ∨ p.status = "pending" ∨
        p.status = "in_process") →
      webhookRoute "payment" (some did) (Except.ok p) st now rand = (⟨200, "OK"⟩, st)) ∧
    (p.status = "approved" →
      ∃ newR, (webhookRoute "payment" (some did) (Except.ok p) st now rand).snd.reservations =
          st.reservations ++ [newR] ∧
        newR.orderId = some p.external_reference ∧
        newR.paymentStatus = "approved" ∧ newR.isPaid = true) := by
  constructor
  · rintro (h | h | h | h) <;>
      simp [webhookRoute, webhookHandler, webhookDispatch, h,
        processRejectedPayment, processCancelledPayment, processPendingPayment, hmiss]
  · intro h
    refine ⟨saveReservation none (newApprovedReservation p) now rand, ?_, ?_, ?_, ?_⟩
    · simp [webhookRoute, webhookHandler, webhookDispatch, h,
        processApprovedPayment, hmiss]
    · simp [saveReservation, newApprovedReservation]
    · simp [saveReservation, newApprovedReservation]
    · simp [saveReservation, newApprovedReservation]

theorem nonApproved_webhook_no_create_witness :
    (findByOrderId "ORD9"
        (⟨[], []⟩ : SysState).reservations = none) ∧
    ((("rejected" : String) = "rejected" ∨ ("rejected" : String) = "cancelled" ∨
        ("rejected" : String) = "pending" ∨ ("rejected" : String) = "in_process") →
      webhookRoute "payment" (some "1")
        (Except.ok { id := "p9", status := "rejected", status_detail := "cc",
                     external_reference := "ORD9", transaction_amount := 0,
                     metadata := ⟨"e9", "T", 1, none, "", ""⟩, payer := none })
        ⟨[], []⟩ 7 "zz" = (⟨200, "OK"⟩, ⟨[], []⟩)) :=
  ⟨by decide,
   (nonApproved_webhook_no_create
      { id := "p9", status := "rejected", status_detail := "cc",
        external_reference := "ORD9", transaction_amount := 0,
        metadata := ⟨"e9", "T", 1, none, "", ""⟩, payer := none }
      ⟨[], []⟩ "1" 7 "zz" (by decide)).1⟩

end Bardo
